import Mathlib

/-!
# Street-lamp decision service: a shallow embedding

This file embeds the decision logic of the street-lamp controller
(`app.py`, `code.py`, `train_model.py`) in Lean 4 and proves the
claims of the spec about it.

Python dictionaries are modelled as association lists `List (String × PyVal)`
with first-match lookup; Python numbers become `Rat`; booleans become `Bool`;
pandas `NaN` cells (produced by `pd.DataFrame(..., columns=FEATURES)` when a
column is absent) get their own `PyVal` constructor.  The trained
`RandomForestClassifier` is opaque: it is a parameter
`model_clf : List PyVal → Int` giving `predict(X)[0]` on a feature row.
Python exceptions (`KeyError` from dict/DataFrame indexing) are modelled with
`Except String`.  Flask handlers become pure functions from the parsed request
body (each field `Option`al, `none` = absent) to an `HttpResp`; the number of
oracle (`predict`) invocations during handling is threaded explicitly as a
second `Nat` component.
-/

namespace StreetLamp

/-- A JSON / Python value as it occurs in the dictionaries the code handles:
a number, a boolean, or a pandas `NaN` cell. -/
inductive PyVal where
  | num (q : Rat)
  | pybool (b : Bool)
  | nan
deriving DecidableEq, Repr

/-- Python truthiness of a value (`if v:`): numbers are truthy iff nonzero,
booleans are themselves, float NaN is truthy. -/
def PyVal.truthy : PyVal → Bool
  | .num q => decide (q ≠ 0)
  | .pybool b => b
  | .nan => true

/-- A Python dict, as an association list with first-match lookup. -/
abbrev Dict := List (String × PyVal)

/-- Python `d.get(k, False)` followed by truthiness, as in
`all_inputs.get("is_night_time", False)` (app.py line 135). -/
def getBoolDefault (d : Dict) (k : String) : Bool :=
  match d.lookup k with
  | some v => v.truthy
  | none => false

/-- The list `FEATURES` from app.py lines 16–19. -/
def FEATURES : List String :=
  ["humidity", "cloudcover", "visibility", "uvindex", "day_of_year",
   "temp", "precip"]

/-- The list `FEATURES` from train_model.py line 13. -/
def FEATURES_train : List String :=
  ["humidity", "cloudcover", "visibility", "uvindex", "day_of_year", "temp", "precip"]

/-- The list `FEATURES` from code.py line 12. -/
def FEATURES_code : List String :=
  ["humidity", "cloudcover", "visibility", "uvindex", "day_of_year", "temp", "precip"]

/-- The constant `MAX_SAFE_TEMP_C` from app.py line 22. -/
def MAX_SAFE_TEMP_C : Rat := 55

/-- The health-status record returned by `read_health_sensor` (app.py lines 30–42). -/
structure HealthStatus where
  current_temp_c : Rat
  max_safe_temp_c : Rat
  is_overheated : Bool
deriving DecidableEq, Repr

/-- Round-half-to-even on rationals, the tie-breaking of Python `round`. -/
def roundHalfEven (q : Rat) : Int :=
  if q - ⌊q⌋ = (1 : Rat) / 2 then (if ⌊q⌋ % 2 = 0 then ⌊q⌋ else ⌊q⌋ + 1)
  else round q

/-- Python `round(x, 1)`. -/
def roundPy1 (q : Rat) : Rat := (roundHalfEven (q * 10) : Rat) / 10

/-- The function `read_health_sensor` (app.py lines 30–42), parametrised by the raw sensor
reading `current_temp` (in the source a `random.uniform(30.0, 65.0)` draw
standing in for real hardware).  Note the returned `current_temp_c` is the
reading rounded to one decimal place, while `is_overheated` is computed from
the unrounded reading. -/
def read_health_sensor (current_temp : Rat) : HealthStatus :=
  { current_temp_c := roundPy1 current_temp
  , max_safe_temp_c := MAX_SAFE_TEMP_C
  , is_overheated := decide (current_temp > MAX_SAFE_TEMP_C) }

/-- The lamp-action strings returned by the code, under the enum names of the spec. -/
def OFF_DAYTIME : String := "OFF (Daytime)"

def MAX_OUTPUT_FAILSAFE : String := "MAX OUTPUT (System Failsafe: Overheat)"

def MAX_OUTPUT_WEATHER_OVERRIDE : String := "MAX OUTPUT (Safety Override: Rain/Fog)"

def DIMMER_MOTION_DETECTED : String := "DIMMER OUTPUT (Motion Detected)"

def OFF_NO_MOTION : String := "OFF (No Motion Detected)"

/-- Column selection `df[ks]` on a one-row DataFrame built from the dict `d`:
the values of the keys `ks` in order, or `none` (a `KeyError`) as soon as one
key is absent. -/
def selectRow (d : Dict) : List String → Option (List PyVal)
  | [] => some []
  | k :: ks =>
    match d.lookup k, selectRow d ks with
    | some v, some vs => some (v :: vs)
    | _, _ => none

/-- The function `determine_lamp_action` (app.py lines 129–168).
`pd.DataFrame([all_inputs])[FEATURES]` selects exactly the `FEATURES` columns
in that order and raises `KeyError` when one is absent; this is
`selectRow all_inputs FEATURES`.  `model_clf.predict(X_weather)[0]` is the
opaque oracle applied to that row.  `all_inputs["is_motion_detected"]` raises
`KeyError` when absent. -/
def determine_lamp_action (all_inputs : Dict) (model_clf : List PyVal → Int)
    (health_status : HealthStatus) : Except String String :=
  if getBoolDefault all_inputs "is_night_time" = false then
    .ok OFF_DAYTIME
  else if health_status.is_overheated then
    .ok MAX_OUTPUT_FAILSAFE
  else
    match selectRow all_inputs FEATURES with
    | none => .error "KeyError"
    | some X_weather =>
      let max_light_required := model_clf X_weather
      if max_light_required = 1 then
        .ok MAX_OUTPUT_WEATHER_OVERRIDE
      else
        match all_inputs.lookup "is_motion_detected" with
        | none => .error "KeyError: is_motion_detected"
        | some v =>
          if v.truthy then .ok DIMMER_MOTION_DETECTED
          else .ok OFF_NO_MOTION

/-- The single feature row built by `pd.DataFrame([weather_data], columns=FEATURES)`
in code.py line 26: values of the `FEATURES` columns in order, an absent
column becoming `NaN` (not an error). -/
def df_row (weather_data : Dict) : List PyVal :=
  FEATURES_code.map (fun k => (weather_data.lookup k).getD .nan)

/-- The function `predict_max_light_required` (code.py lines 24–28). -/
def predict_max_light_required (model_clf : List PyVal → Int)
    (weather_data : Dict) : Int :=
  model_clf (df_row weather_data)

/-- The function `street_lamp_control_system` (code.py lines 31–47). -/
def street_lamp_control_system (model_clf : List PyVal → Int)
    (is_night_time is_motion_detected : Bool)
    (real_time_weather : Dict) : String :=
  if is_night_time = false then
    OFF_DAYTIME
  else
    let max_light_required := predict_max_light_required model_clf real_time_weather
    if max_light_required = 1 then
      MAX_OUTPUT_WEATHER_OVERRIDE
    else if is_motion_detected then
      DIMMER_MOTION_DETECTED
    else
      OFF_NO_MOTION

/-- The function `determine_lamp_action` instrumented with the number of times the oracle
(`model_clf.predict`) is invoked while it runs.  Identical control flow to
`determine_lamp_action`; the second component counts predict calls. -/
def determine_lamp_action_count (all_inputs : Dict) (model_clf : List PyVal → Int)
    (health_status : HealthStatus) : Except String String × Nat :=
  if getBoolDefault all_inputs "is_night_time" = false then
    (.ok OFF_DAYTIME, 0)
  else if health_status.is_overheated then
    (.ok MAX_OUTPUT_FAILSAFE, 0)
  else
    match selectRow all_inputs FEATURES with
    | none => (.error "KeyError", 0)
    | some X_weather =>
      let max_light_required := model_clf X_weather
      if max_light_required = 1 then
        (.ok MAX_OUTPUT_WEATHER_OVERRIDE, 1)
      else
        match all_inputs.lookup "is_motion_detected" with
        | none => (.error "KeyError: is_motion_detected", 1)
        | some v =>
          if v.truthy then (.ok DIMMER_MOTION_DETECTED, 1)
          else (.ok OFF_NO_MOTION, 1)

/-- The function `street_lamp_control_system` instrumented with the number of predict calls. -/
def street_lamp_control_system_count (model_clf : List PyVal → Int)
    (is_night_time is_motion_detected : Bool)
    (real_time_weather : Dict) : String × Nat :=
  if is_night_time = false then
    (OFF_DAYTIME, 0)
  else
    let max_light_required := predict_max_light_required model_clf real_time_weather
    if max_light_required = 1 then
      (MAX_OUTPUT_WEATHER_OVERRIDE, 1)
    else if is_motion_detected then
      (DIMMER_MOTION_DETECTED, 1)
    else
      (OFF_NO_MOTION, 1)

/-- An HTTP response as the handlers build it: status code, the `status`
field of the body (`true` = "success"), the `message` field of the body (empty when the body
has none), and the optional `lamp_action` / `weather_prediction` fields. -/
structure HttpResp where
  status : Nat
  success : Bool
  message : String
  lamp_action : Option String := none
  weather_prediction : Option String := none
deriving DecidableEq, Repr

/-- The result of `fetch_real_time_weather` (app.py lines 84–127) as the
handler consumes it: either `{"status": "error", "message": m}` or
`{"status": "success", "data": features, "astronomy": ...}`. -/
inductive WeatherResult where
  | fetch_error (message : String)
  | success (data : Dict) (sunrise sunset : String)
deriving DecidableEq, Repr

/-- The inbound JSON body of the app.py `/api/control_lamp` route, restricted to the
one field the handler reads; `none` = the field is absent from the body. -/
structure AppRequest where
  is_motion_detected : Option PyVal
deriving DecidableEq, Repr

/-- The handler `control_lamp` (app.py lines 173–229), with the classifier, the weather
fetch result and the health reading as parameters (they are I/O in the
source).  Returns the response paired with the number of oracle calls made
while handling the request.  Note line 181:
`client_data.get("is_motion_detected", False)` — an absent field silently
defaults to `False`.  A `KeyError` escaping `determine_lamp_action` is caught
by the `except` block (lines 224–229) and surfaced as a 500. -/
def control_lamp (model_loaded : Bool) (model_clf : List PyVal → Int)
    (weather_result : WeatherResult) (health_status : HealthStatus)
    (req : AppRequest) : HttpResp × Nat :=
  if model_loaded = false then
    ({ status := 500, success := false, message := "AI Model not loaded." }, 0)
  else
    let is_motion_detected := (req.is_motion_detected.map PyVal.truthy).getD false
    match weather_result with
    | .fetch_error m =>
      ({ status := 500, success := false, message := m }, 0)
    | .success weather_features _ _ =>
      let all_inputs : Dict :=
        ("is_motion_detected", .pybool is_motion_detected) :: weather_features
      match determine_lamp_action_count all_inputs model_clf health_status with
      | (.error e, n) =>
        ({ status := 500, success := false
         , message := "An internal server error occurred: " ++ e }, n)
      | (.ok lamp_action, n) =>
        ({ status := 200, success := true, message := ""
         , lamp_action := some lamp_action }, n)

/-- The inbound JSON body of the code.py `/api/control_lamp` route, restricted to the
three fields the handler reads; `none` = the field is absent (so `data[k]`
raises `KeyError`). -/
structure CodeRequest where
  is_night_time : Option PyVal
  is_motion_detected : Option PyVal
  weather_data : Option Dict
deriving DecidableEq, Repr

/-- The 400 error response built by the `except` block of code.py (lines 87–91):
Python `str(e)` for a `KeyError` renders the missing key name (the
quoting Python adds around it is omitted in this model). -/
def codeErr400 (key : String) : HttpResp :=
  { status := 400, success := false
  , message := "An error occurred: " ++ key }

/-- The handler `control_lamp_endpoint` (code.py lines 50–91), returning the response
paired with the number of oracle (`predict`) calls made while handling the
request.  The fields are read in source order (`is_night_time`,
`is_motion_detected`, `weather_data`); the first absent one raises `KeyError`,
caught as a 400.  On the success path the oracle is consulted inside
`street_lamp_control_system` (line 78) and then once more on line 83 for the
`weather_prediction` field of the response. -/
def control_lamp_endpoint (model_clf : List PyVal → Int)
    (data : CodeRequest) : HttpResp × Nat :=
  match data.is_night_time with
  | none => (codeErr400 "is_night_time", 0)
  | some is_night =>
    match data.is_motion_detected with
    | none => (codeErr400 "is_motion_detected", 0)
    | some is_motion =>
      match data.weather_data with
      | none => (codeErr400 "weather_data", 0)
      | some weather =>
        match street_lamp_control_system_count model_clf is_night.truthy
            is_motion.truthy weather with
        | (lamp_action, n) =>
          ({ status := 200, success := true
           , message := "Street lamp action determined successfully."
           , lamp_action := some lamp_action
           , weather_prediction :=
               some (if predict_max_light_required model_clf weather = 1
                     then "Max Light" else "Dimmer/Off") }, n + 1)

/-- The function `is_currently_night` (app.py lines 63–79).  Datetimes within the current
day are minutes since local midnight (`Nat`); `parsed = some (sunrise_dt,
sunset_dt)` is the successful `strptime` of both time strings, `none` the
`ValueError` fallback, which compares `today.hour` (integer division by 60)
against the safe default window. -/
def is_currently_night (today : Nat) (parsed : Option (Nat × Nat)) : Bool :=
  match parsed with
  | none =>
    let current_hour := today / 60
    decide (current_hour < 7) || decide (current_hour ≥ 19)
  | some (sunrise_dt, sunset_dt) =>
    decide (today < sunrise_dt) || decide (today ≥ sunset_dt)

/-- The 7 weather features as a named record (the `WeatherFeatures` of the spec). -/
structure WeatherFeatures where
  humidity : Rat
  cloudcover : Rat
  visibility : Rat
  uvindex : Rat
  day_of_year : Rat
  temp : Rat
  precip : Rat
deriving DecidableEq, Repr

/-- The weather-feature dictionary carrying a `WeatherFeatures` record, in the
insertion order `fetch_real_time_weather` uses (app.py lines 101–110, minus
the `is_night_time` entry handled separately). -/
def WeatherFeatures.toDict (w : WeatherFeatures) : Dict :=
  [("temp", .num w.temp), ("humidity", .num w.humidity),
   ("precip", .num w.precip), ("cloudcover", .num w.cloudcover),
   ("visibility", .num w.visibility), ("uvindex", .num w.uvindex),
   ("day_of_year", .num w.day_of_year)]

/-- The row of feature values in `FEATURES` order for a `WeatherFeatures`
record: what the classifier must receive. -/
def WeatherFeatures.featureRow (w : WeatherFeatures) : List PyVal :=
  [.num w.humidity, .num w.cloudcover, .num w.visibility, .num w.uvindex,
   .num w.day_of_year, .num w.temp, .num w.precip]

/-- The merged `all_inputs` dictionary of app.py lines 195–198: the weather
features plus the `is_night_time` flag (put there by the weather adapter,
line 109) and the `is_motion_detected` flag.  With first-match lookup,
prepending models the Python dict-merge precedence of the flags. -/
def mkAllInputs (weather : Dict) (is_night_time is_motion_detected : Bool) : Dict :=
  ("is_motion_detected", .pybool is_motion_detected) ::
  ("is_night_time", .pybool is_night_time) :: weather

/-! ## Helper lemmas -/

/-- Looking up the `is_night_time` flag in the merged inputs yields the flag. -/
theorem getBool_night_mkAllInputs (weather : Dict) (n m : Bool) :
    getBoolDefault (mkAllInputs weather n m) "is_night_time" = n := rfl

/-- Looking up the `is_motion_detected` flag in the merged inputs yields the flag. -/
theorem lookup_motion_mkAllInputs (weather : Dict) (n m : Bool) :
    (mkAllInputs weather n m).lookup "is_motion_detected" = some (.pybool m) := rfl

/-- Column selection on the merged inputs of a feature record recovers exactly
the feature row, in `FEATURES` order. -/
theorem selectRow_mkAllInputs (w : WeatherFeatures) (n m : Bool) :
    selectRow (mkAllInputs w.toDict n m) FEATURES = some w.featureRow := rfl

/-- the code.py DataFrame row on a full feature record is the same feature row. -/
theorem df_row_toDict (w : WeatherFeatures) : df_row w.toDict = w.featureRow := rfl

/-- Column selection over a key list depends only on the lookups at those
keys, never on the insertion order of the dictionary. -/
theorem selectRow_congr (d₁ d₂ : Dict) :
    ∀ ks : List String, (∀ k ∈ ks, d₁.lookup k = d₂.lookup k) →
      selectRow d₁ ks = selectRow d₂ ks := by
  intro ks
  induction ks with
  | nil => intro _; rfl
  | cons a t ih =>
    intro h
    have ha := h a (by simp)
    have ht := ih (fun k hk => h k (by simp [hk]))
    simp [selectRow, ha, ht]

/-- The instrumented decision function computes the same action. -/
theorem determine_lamp_action_count_fst (all_inputs : Dict)
    (model_clf : List PyVal → Int) (health_status : HealthStatus) :
    (determine_lamp_action_count all_inputs model_clf health_status).1 =
      determine_lamp_action all_inputs model_clf health_status := by
  unfold determine_lamp_action_count determine_lamp_action
  by_cases hgb : getBoolDefault all_inputs "is_night_time" = false
  · simp [hgb]
  · by_cases hov : health_status.is_overheated
    · simp [hgb, hov]
    · cases hs : selectRow all_inputs FEATURES with
      | none => simp [hgb, hov, hs]
      | some X =>
        by_cases h1 : model_clf X = 1
        · simp [hgb, hov, hs, h1]
        · cases hm : all_inputs.lookup "is_motion_detected" with
          | none => simp [hgb, hov, hs, h1, hm]
          | some v =>
            by_cases ht : v.truthy <;> simp [hgb, hov, hs, h1, hm, ht]

/-- The instrumented control system computes the same action. -/
theorem street_lamp_control_system_count_fst (model_clf : List PyVal → Int)
    (n m : Bool) (weather : Dict) :
    (street_lamp_control_system_count model_clf n m weather).1 =
      street_lamp_control_system model_clf n m weather := by
  unfold street_lamp_control_system_count street_lamp_control_system
  by_cases hn : n = false
  · simp [hn]
  · by_cases h1 : predict_max_light_required model_clf weather = 1
    · simp [hn, h1]
    · cases m <;> simp [hn, h1]

/-- The instrumented decision function makes at most one oracle call. -/
theorem determine_count_le_one (all_inputs : Dict)
    (model_clf : List PyVal → Int) (health_status : HealthStatus) :
    (determine_lamp_action_count all_inputs model_clf health_status).2 ≤ 1 := by
  unfold determine_lamp_action_count
  by_cases hgb : getBoolDefault all_inputs "is_night_time" = false
  · simp [hgb]
  · by_cases hov : health_status.is_overheated
    · simp [hgb, hov]
    · cases hs : selectRow all_inputs FEATURES with
      | none => simp [hgb, hov, hs]
      | some X =>
        by_cases h1 : model_clf X = 1
        · simp [hgb, hov, hs, h1]
        · cases hm : all_inputs.lookup "is_motion_detected" with
          | none => simp [hgb, hov, hs, h1, hm]
          | some v =>
            by_cases ht : v.truthy <;> simp [hgb, hov, hs, h1, hm, ht]

/-! ## Claims -/

/-- C1: The feature vector handed to the predict method of the classifier always lists
exactly the 7 features in the fixed order `humidity, cloudcover, visibility,
uvindex, day_of_year, temp, precip` — the same names and order used at
training time — regardless of the insertion order of the input dictionary,
and no other fields (e.g. `is_night_time`, `is_motion_detected`) are included:
the serving list equals the training and code.py lists, excludes both flag
names, on a full feature record the row handed to predict is exactly the 7
values in that order, and the row depends only on the lookups of the dictionary at
the 7 feature names (never on insertion order). -/
theorem feature_vector_contract :
    FEATURES = ["humidity", "cloudcover", "visibility", "uvindex",
                "day_of_year", "temp", "precip"] ∧
    FEATURES = FEATURES_train ∧
    FEATURES = FEATURES_code ∧
    "is_night_time" ∉ FEATURES ∧
    "is_motion_detected" ∉ FEATURES ∧
    (∀ (w : WeatherFeatures) (n m : Bool),
      selectRow (mkAllInputs w.toDict n m) FEATURES = some w.featureRow) ∧
    (∀ d₁ d₂ : Dict, (∀ k ∈ FEATURES, d₁.lookup k = d₂.lookup k) →
      selectRow d₁ FEATURES = selectRow d₂ FEATURES) := by
  refine ⟨rfl, rfl, rfl, by decide, by decide, selectRow_mkAllInputs, ?_⟩
  intro d₁ d₂ h
  exact selectRow_congr d₁ d₂ FEATURES h

/-- C1 witness: two dictionaries holding the same bindings in different
insertion orders produce the same predict row. -/
theorem feature_vector_contract_witness :
    selectRow
      [("humidity", PyVal.num 75), ("cloudcover", PyVal.num 60),
       ("visibility", PyVal.num 9), ("uvindex", PyVal.num 3),
       ("day_of_year", PyVal.num 300), ("temp", PyVal.num 26),
       ("precip", PyVal.num 0), ("is_night_time", PyVal.pybool true)] FEATURES =
    selectRow
      [("is_night_time", PyVal.pybool true), ("temp", PyVal.num 26),
       ("precip", PyVal.num 0), ("humidity", PyVal.num 75),
       ("cloudcover", PyVal.num 60), ("visibility", PyVal.num 9),
       ("uvindex", PyVal.num 3), ("day_of_year", PyVal.num 300)] FEATURES :=
  feature_vector_contract.2.2.2.2.2.2 _ _ (by decide)

/-- C2: whenever `is_night_time` is truthy and the health status is
overheated, `determine_lamp_action` returns `MAX_OUTPUT_FAILSAFE`, for every
oracle and every motion flag (failsafe dominance). -/
theorem failsafe_dominance (all_inputs : Dict) (model_clf : List PyVal → Int)
    (health_status : HealthStatus)
    (hn : getBoolDefault all_inputs "is_night_time" = true)
    (ho : health_status.is_overheated = true) :
    determine_lamp_action all_inputs model_clf health_status =
      .ok MAX_OUTPUT_FAILSAFE := by
  simp [determine_lamp_action, hn, ho]

/-- C2 witness: a concrete overheated night input with a zero oracle and no
motion still yields the failsafe action. -/
theorem failsafe_dominance_witness :
    determine_lamp_action
      (mkAllInputs (WeatherFeatures.mk 50 20 10 5 100 30 0).toDict true false)
      (fun _ => 0) ⟨60, 55, true⟩ = .ok MAX_OUTPUT_FAILSAFE :=
  failsafe_dominance _ _ _ rfl rfl

/-- C3: for night, non-overheated inputs, an oracle verdict of 1 forces
`MAX_OUTPUT_WEATHER_OVERRIDE` regardless of motion, and a verdict of 0 yields
`DIMMER_MOTION_DETECTED` exactly when motion is detected and `OFF_NO_MOTION`
otherwise. -/
theorem night_oracle_behavior (all_inputs : Dict) (model_clf : List PyVal → Int)
    (health_status : HealthStatus) (X : List PyVal) (motion : Bool)
    (hn : getBoolDefault all_inputs "is_night_time" = true)
    (ho : health_status.is_overheated = false)
    (hX : selectRow all_inputs FEATURES = some X)
    (hm : all_inputs.lookup "is_motion_detected" = some (.pybool motion)) :
    (model_clf X = 1 →
      determine_lamp_action all_inputs model_clf health_status =
        .ok MAX_OUTPUT_WEATHER_OVERRIDE) ∧
    (model_clf X = 0 →
      determine_lamp_action all_inputs model_clf health_status =
        .ok (if motion then DIMMER_MOTION_DETECTED else OFF_NO_MOTION)) := by
  constructor
  · intro h1
    simp [determine_lamp_action, hn, ho, hX, h1]
  · intro h0
    simp [determine_lamp_action, hn, ho, hX, h0, hm, PyVal.truthy]
    cases motion <;> simp

/-- C3 witness: a concrete night, non-overheated input with an
always-1 oracle yields the weather override even with motion present. -/
theorem night_oracle_behavior_witness :
    determine_lamp_action
      (mkAllInputs (WeatherFeatures.mk 75 60 9 3 300 26 0).toDict true true)
      (fun _ => 1) ⟨40, 55, false⟩ = .ok MAX_OUTPUT_WEATHER_OVERRIDE :=
  (night_oracle_behavior
    (mkAllInputs (WeatherFeatures.mk 75 60 9 3 300 26 0).toDict true true)
    (fun _ => 1) ⟨40, 55, false⟩
    (WeatherFeatures.mk 75 60 9 3 300 26 0).featureRow true
    rfl rfl rfl rfl).1 rfl

/-- C4: whenever `is_night_time` is falsy or absent, `determine_lamp_action`
returns `OFF_DAYTIME`, for every health status, oracle and motion flag
(daytime dominance). -/
theorem daytime_dominance (all_inputs : Dict) (model_clf : List PyVal → Int)
    (health_status : HealthStatus)
    (hn : getBoolDefault all_inputs "is_night_time" = false) :
    determine_lamp_action all_inputs model_clf health_status =
      .ok OFF_DAYTIME := by
  simp [determine_lamp_action, hn]

/-- C4 witness: a concrete daytime input with overheat, an always-1 oracle
and motion still yields `OFF_DAYTIME`. -/
theorem daytime_dominance_witness :
    determine_lamp_action
      (mkAllInputs (WeatherFeatures.mk 75 60 9 3 300 26 0).toDict false true)
      (fun _ => 1) ⟨60, 55, true⟩ = .ok OFF_DAYTIME :=
  daytime_dominance _ _ _ rfl

/-- C10: with successfully parsed sunrise/sunset times, `is_currently_night`
is true exactly when the moment is strictly before sunrise or at/after
sunset; the sunset instant itself is night, and (when sunrise precedes
sunset) the sunrise instant itself is day. -/
theorem night_window_boundary :
    (∀ today sunrise_dt sunset_dt : Nat,
      is_currently_night today (some (sunrise_dt, sunset_dt)) = true ↔
        today < sunrise_dt ∨ today ≥ sunset_dt) ∧
    (∀ sunrise_dt sunset_dt : Nat,
      is_currently_night sunset_dt (some (sunrise_dt, sunset_dt)) = true) ∧
    (∀ sunrise_dt sunset_dt : Nat, sunrise_dt < sunset_dt →
      is_currently_night sunrise_dt (some (sunrise_dt, sunset_dt)) = false) := by
  refine ⟨?_, ?_, ?_⟩
  · intro today sr ss
    simp [is_currently_night]
  · intro sr ss
    simp [is_currently_night]
  · intro sr ss h
    simp [is_currently_night]
    omega

/-- C10 witness: with sunrise 06:00 (360 min) and sunset 19:00 (1140 min),
the sunrise instant is classified as day. -/
theorem night_window_boundary_witness :
    360 < 1140 ∧ is_currently_night 360 (some (360, 1140)) = false :=
  ⟨by decide, night_window_boundary.2.2 360 1140 (by decide)⟩

/-- C5 counterexample: the two decision variants are not duplicates of the
same function.  On a concrete overheated night input with no motion and an
always-0 oracle, the `determine_lamp_action` of app.py fires the hardware failsafe
while the `street_lamp_control_system` of code.py — which has no failsafe stage —
switches the lamp off. -/
theorem decision_variants_differ_on_overheat :
    determine_lamp_action
      (mkAllInputs (WeatherFeatures.mk 50 20 10 5 100 30 0).toDict true false)
      (fun _ => 0) ⟨60, 55, true⟩ = .ok MAX_OUTPUT_FAILSAFE ∧
    street_lamp_control_system (fun _ => 0) true false
      (WeatherFeatures.mk 50 20 10 5 100 30 0).toDict = OFF_NO_MOTION ∧
    MAX_OUTPUT_FAILSAFE ≠ OFF_NO_MOTION :=
  ⟨rfl, rfl, by decide⟩

/-- C5 amended: the two variants agree on every well-formed input whose
health status is not overheated (the code.py variant never consults the health
status, so it lacks the failsafe stage of app.py; everywhere else the logic
coincides). -/
theorem decision_variants_agree (w : WeatherFeatures) (n m : Bool)
    (model_clf : List PyVal → Int) (health_status : HealthStatus)
    (ho : health_status.is_overheated = false) :
    determine_lamp_action (mkAllInputs w.toDict n m) model_clf health_status =
      .ok (street_lamp_control_system model_clf n m w.toDict) := by
  cases n with
  | false =>
    simp [determine_lamp_action, street_lamp_control_system,
      getBool_night_mkAllInputs]
  | true =>
    have hrow : predict_max_light_required model_clf w.toDict =
        model_clf w.featureRow := rfl
    by_cases h1 : model_clf w.featureRow = 1
    · simp [determine_lamp_action, street_lamp_control_system,
        getBool_night_mkAllInputs, ho, selectRow_mkAllInputs,
        hrow, h1]
    · simp [determine_lamp_action, street_lamp_control_system,
        getBool_night_mkAllInputs, ho, selectRow_mkAllInputs,
        lookup_motion_mkAllInputs, hrow, h1, PyVal.truthy]
      cases m <;> simp

/-- C5 witness: on a concrete non-overheated night input with motion and an
always-1 oracle, the two variants agree. -/
theorem decision_variants_agree_witness :
    determine_lamp_action
      (mkAllInputs (WeatherFeatures.mk 75 60 9 3 300 26 0).toDict true true)
      (fun _ => 1) ⟨40, 55, false⟩ =
    .ok (street_lamp_control_system (fun _ => 1) true true
      (WeatherFeatures.mk 75 60 9 3 300 26 0).toDict) :=
  decision_variants_agree (WeatherFeatures.mk 75 60 9 3 300 26 0) true true
    (fun _ => 1) ⟨40, 55, false⟩ rfl

/-- C6 counterexample: the app.py handler does not reject a body lacking
`is_motion_detected`.  On a concrete request with no such field, successful
weather data for a clear night, a healthy device and an always-0 oracle, it
answers 200 success with lamp action `OFF_NO_MOTION` — and the oracle is
queried once along the way — instead of a 400 error with no oracle call. -/
theorem missing_motion_not_rejected :
    control_lamp true (fun _ => 0)
      (.success
        [("temp", .num 26), ("humidity", .num 75), ("precip", .num 0),
         ("cloudcover", .num 60), ("visibility", .num 9), ("uvindex", .num 3),
         ("day_of_year", .num 300), ("is_night_time", .pybool true)]
        "07:00 AM" "07:00 PM")
      ⟨40, 55, false⟩ ⟨none⟩ =
    ({ status := 200, success := true, message := ""
     , lamp_action := some OFF_NO_MOTION }, 1) ∧
    (200 : Nat) ≠ 400 :=
  ⟨rfl, by decide⟩

/-- C6 amended: only the code.py handler rejects a missing
`is_motion_detected`: it answers 400 with a nonempty message and the oracle is
never queried while handling that request; the app.py handler instead behaves
exactly as if the body carried `is_motion_detected = false` (the missing field
silently defaults). -/
theorem missing_motion_handling :
    (∀ (model_clf : List PyVal → Int) (data : CodeRequest),
      data.is_motion_detected = none →
        (control_lamp_endpoint model_clf data).1.status = 400 ∧
        (control_lamp_endpoint model_clf data).1.success = false ∧
        (control_lamp_endpoint model_clf data).1.message ≠ "" ∧
        (control_lamp_endpoint model_clf data).2 = 0) ∧
    (∀ (model_loaded : Bool) (model_clf : List PyVal → Int)
       (weather_result : WeatherResult) (health_status : HealthStatus),
      control_lamp model_loaded model_clf weather_result health_status ⟨none⟩ =
        control_lamp model_loaded model_clf weather_result health_status
          ⟨some (.pybool false)⟩) := by
  constructor
  · intro model_clf data hm
    obtain ⟨nf, mf, wf⟩ := data
    cases nf with
    | none =>
      refine ⟨rfl, rfl, ?_, rfl⟩
      simp [control_lamp_endpoint, codeErr400]
    | some nv =>
      cases mf with
      | none =>
        refine ⟨rfl, rfl, ?_, rfl⟩
        simp [control_lamp_endpoint, codeErr400]
      | some mv => simp at hm
  · intro model_loaded model_clf weather_result health_status
    rfl

/-- C6 witness: a concrete code.py request carrying a night flag and weather
but no `is_motion_detected` draws a 400 with no oracle call. -/
theorem missing_motion_handling_witness :
    (control_lamp_endpoint (fun _ => 0)
      ⟨some (.pybool true), none,
       some (WeatherFeatures.mk 75 60 9 3 300 26 0).toDict⟩).1.status = 400 ∧
    (control_lamp_endpoint (fun _ => 0)
      ⟨some (.pybool true), none,
       some (WeatherFeatures.mk 75 60 9 3 300 26 0).toDict⟩).2 = 0 := by
  have h := missing_motion_handling.1 (fun _ => 0)
    ⟨some (.pybool true), none,
     some (WeatherFeatures.mk 75 60 9 3 300 26 0).toDict⟩ rfl
  exact ⟨h.1, h.2.2.2⟩

/-- C7 counterexample: a predict verdict outside {0, 1} does not raise any
contract error.  With an always-2 oracle on a night, non-overheated,
motionless input, the app.py engine returns the lamp action `OFF_NO_MOTION` and
the code.py variant does the same — the out-of-range verdict is processed
silently. -/
theorem no_oracle_contract_error :
    determine_lamp_action
      (mkAllInputs (WeatherFeatures.mk 50 20 10 5 100 30 0).toDict true false)
      (fun _ => 2) ⟨40, 55, false⟩ = .ok OFF_NO_MOTION ∧
    street_lamp_control_system (fun _ => 2) true false
      (WeatherFeatures.mk 50 20 10 5 100 30 0).toDict = OFF_NO_MOTION :=
  ⟨rfl, rfl⟩

/-- C7 amended: neither variant checks the oracle verdict against {0, 1}:
every verdict other than 1 — including out-of-range ones — is treated exactly
like 0, falling through to the motion check and producing a lamp action; no
contract-violation error is signalled anywhere. -/
theorem nonbinary_prediction_behaves_as_zero (all_inputs : Dict)
    (model_clf : List PyVal → Int) (health_status : HealthStatus)
    (X : List PyVal) (motion : Bool)
    (hn : getBoolDefault all_inputs "is_night_time" = true)
    (ho : health_status.is_overheated = false)
    (hX : selectRow all_inputs FEATURES = some X)
    (hm : all_inputs.lookup "is_motion_detected" = some (.pybool motion))
    (hp : model_clf X ≠ 1) :
    determine_lamp_action all_inputs model_clf health_status =
      .ok (if motion then DIMMER_MOTION_DETECTED else OFF_NO_MOTION) := by
  simp [determine_lamp_action, hn, ho, hX, hp, hm, PyVal.truthy]
  cases motion <;> simp

/-- C7 witness: an always-7 oracle on a concrete night, non-overheated input
with motion yields `DIMMER_MOTION_DETECTED`, not an error. -/
theorem nonbinary_prediction_behaves_as_zero_witness :
    determine_lamp_action
      (mkAllInputs (WeatherFeatures.mk 75 60 9 3 300 26 0).toDict true true)
      (fun _ => 7) ⟨40, 55, false⟩ = .ok DIMMER_MOTION_DETECTED :=
  nonbinary_prediction_behaves_as_zero
    (mkAllInputs (WeatherFeatures.mk 75 60 9 3 300 26 0).toDict true true)
    (fun _ => 7) ⟨40, 55, false⟩
    (WeatherFeatures.mk 75 60 9 3 300 26 0).featureRow true
    rfl rfl rfl rfl (by decide)

/-- C8 counterexample: the returned record does not satisfy
`is_overheated = (current_temp_c > max_safe_temp_c)`.  A raw sensor reading of
55.04 °C rounds to a returned `current_temp_c` of exactly 55.0 while
`is_overheated` — computed from the unrounded reading — is `true`. -/
theorem rounded_health_breaks_threshold_relation :
    (read_health_sensor (1376 / 25)).current_temp_c = 55 ∧
    (read_health_sensor (1376 / 25)).max_safe_temp_c = 55 ∧
    (read_health_sensor (1376 / 25)).is_overheated = true := by
  refine ⟨?_, rfl, ?_⟩
  · show roundPy1 (1376 / 25) = 55
    have hq : (1376 / 25 : ℚ) * 10 = 2752 / 5 := by norm_num
    have hfloor : ⌊(2752 / 5 : ℚ)⌋ = 550 := by norm_num [Int.floor_eq_iff]
    have hround : round (2752 / 5 : ℚ) = 550 := by
      rw [round_eq]; norm_num [Int.floor_eq_iff]
    unfold roundPy1
    rw [hq]
    unfold roundHalfEven
    rw [hfloor, hround, if_neg (by norm_num)]
    norm_num
  · show decide ((1376 / 25 : ℚ) > MAX_SAFE_TEMP_C) = true
    norm_num [MAX_SAFE_TEMP_C]

/-- C8 amended: `is_overheated` is strict greater-than against 55.0 on the
*raw* sensor reading (a raw reading of exactly 55.0 is not overheated), while
the returned `current_temp_c` is that reading rounded to one decimal place —
so a record whose `current_temp_c` equals 55.0 can still carry
`is_overheated = true`. -/
theorem overheat_threshold (raw : Rat) :
    (read_health_sensor raw).max_safe_temp_c = MAX_SAFE_TEMP_C ∧
    ((read_health_sensor raw).is_overheated = true ↔ raw > MAX_SAFE_TEMP_C) ∧
    (read_health_sensor raw).current_temp_c = roundPy1 raw := by
  refine ⟨rfl, ?_, rfl⟩
  simp [read_health_sensor]

/-- C8 witness: a raw reading of exactly 55.0 is not overheated. -/
theorem overheat_threshold_witness :
    (read_health_sensor 55).is_overheated = false := by
  have h := (overheat_threshold (55 : Rat)).2.1
  cases hb : (read_health_sensor 55).is_overheated with
  | false => rfl
  | true => exact absurd (h.mp hb) (by norm_num [MAX_SAFE_TEMP_C])

/-- C9 counterexample: the code.py handler builds the `weather_prediction`
field of the response with a second `predict_max_light_required` call
(line 83).  On a concrete well-formed daytime request the oracle is queried
once (the claim says never when `is_night_time` is false), and on the same
request at night it is queried twice (the claim says at most once per
request). -/
theorem extra_oracle_queries_in_code_endpoint :
    (control_lamp_endpoint (fun _ => 0)
      ⟨some (.pybool false), some (.pybool false),
       some (WeatherFeatures.mk 75 60 9 3 300 26 0).toDict⟩).2 = 1 ∧
    (control_lamp_endpoint (fun _ => 0)
      ⟨some (.pybool true), some (.pybool false),
       some (WeatherFeatures.mk 75 60 9 3 300 26 0).toDict⟩).2 = 2 :=
  ⟨rfl, rfl⟩

/-- C9 amended: request handling in app.py satisfies the claim — the oracle is
never queried when `is_night_time` is falsy or the device is overheated, and
at most once per request — but the code.py endpoint makes one additional
predict call for the `weather_prediction` field of the response on every
well-formed request: exactly one call for daytime requests and exactly two
for night requests. -/
theorem oracle_call_discipline :
    (∀ (all_inputs : Dict) (model_clf : List PyVal → Int)
       (health_status : HealthStatus),
      (determine_lamp_action_count all_inputs model_clf health_status).2 ≤ 1) ∧
    (∀ (all_inputs : Dict) (model_clf : List PyVal → Int)
       (health_status : HealthStatus),
      getBoolDefault all_inputs "is_night_time" = false →
        (determine_lamp_action_count all_inputs model_clf health_status).2 = 0) ∧
    (∀ (all_inputs : Dict) (model_clf : List PyVal → Int)
       (health_status : HealthStatus),
      health_status.is_overheated = true →
        (determine_lamp_action_count all_inputs model_clf health_status).2 = 0) ∧
    (∀ (model_loaded : Bool) (model_clf : List PyVal → Int)
       (weather_result : WeatherResult) (health_status : HealthStatus)
       (req : AppRequest),
      (control_lamp model_loaded model_clf weather_result health_status req).2 ≤ 1) ∧
    (∀ (model_clf : List PyVal → Int) (nv mv : PyVal) (weather : Dict),
      (control_lamp_endpoint model_clf ⟨some nv, some mv, some weather⟩).2 =
        if nv.truthy then 2 else 1) := by
  refine ⟨determine_count_le_one, ?_, ?_, ?_, ?_⟩
  · intro all_inputs model_clf health_status hn
    simp [determine_lamp_action_count, hn]
  · intro all_inputs model_clf health_status hov
    by_cases hn : getBoolDefault all_inputs "is_night_time" = false <;>
      simp [determine_lamp_action_count, hn, hov]
  · intro model_loaded model_clf weather_result health_status req
    unfold control_lamp
    by_cases hl : model_loaded = false
    · simp [hl]
    · cases weather_result with
      | fetch_error m => simp [hl]
      | success data sunrise sunset =>
        have hle := determine_count_le_one
          (("is_motion_detected",
            .pybool ((req.is_motion_detected.map PyVal.truthy).getD false)) :: data)
          model_clf health_status
        simp only [hl]
        cases hd : determine_lamp_action_count
            (("is_motion_detected",
              .pybool ((req.is_motion_detected.map PyVal.truthy).getD false)) :: data)
            model_clf health_status with
        | mk r n =>
          rw [hd] at hle
          cases r <;> simpa using hle
  · intro model_clf nv mv weather
    unfold control_lamp_endpoint street_lamp_control_system_count
    by_cases hn : nv.truthy = false
    · simp [hn]
    · have hn' : nv.truthy = true := by revert hn; cases nv.truthy <;> simp
      by_cases h1 : predict_max_light_required model_clf weather = 1
      · simp [hn, hn', h1]
      · by_cases hm : mv.truthy <;> simp [hn, hn', h1, hm]

/-- C9 witness: a concrete daytime input makes the app.py engine perform zero
oracle calls. -/
theorem oracle_call_discipline_witness :
    (determine_lamp_action_count
      (mkAllInputs (WeatherFeatures.mk 75 60 9 3 300 26 0).toDict false true)
      (fun _ => 1) ⟨40, 55, false⟩).2 = 0 :=
  oracle_call_discipline.2.1
    (mkAllInputs (WeatherFeatures.mk 75 60 9 3 300 26 0).toDict false true)
    (fun _ => 1) ⟨40, 55, false⟩ rfl

end StreetLamp
